import Mathlib

/-!
Shallow embedding of the device command protocol layer of the
srobo-legacy/brain-sr-robot repository (files sr/robot/motor.py,
sr/robot/power.py, sr/robot/ruggeduino.py), together with theorems
settling the specification claims about it.

Conventions of the embedding:
* a serial byte is a `Nat` (the value of the Python one-character string);
* a serial transport is modelled by an oracle `t : Nat → Bool` saying whether
  the n-th `serial.write` of an operation succeeds (a raising write writes
  nothing), and by an oracle `reads : Nat → String` giving the result of the
  n-th `serial.readline` of a retry loop;
* Python exceptions become `Except` / `Option` results;
* state mutated by a method is passed and returned explicitly.
-/

namespace Motor
/- Embedding of sr/robot/motor.py. -/

def CMD_RESET : Nat := 0
def CMD_VERSION : Nat := 1
def CMD_SPEED0 : Nat := 2
def CMD_SPEED1 : Nat := 3
def CMD_BOOTLOADER : Nat := 4

def SPEED_BRAKE : Nat := 2

/-- The maximum value that the motor board will accept (`PWM_MAX = 100`). -/
def PWM_MAX : Int := 100

/-- The expected firmware version string. -/
def EXPECTED_FW_VER : String := "MCV4B:3\n"

/-- State of a `MotorChannel` object: the constructor stores the channel
number, the private shadow `_use_brake` (initially `True`) and the cached
power `_power` (initially `0`); the serial handle and lock are external. -/
structure MotorChannelState where
  channel : Nat
  use_brake : Bool
  power : Int
deriving DecidableEq, Repr

/-- `MotorChannel.__init__`: `_use_brake = True`, `_power = 0`. -/
def MotorChannel.init (channel : Nat) : MotorChannelState :=
  { channel := channel, use_brake := true, power := 0 }

/-- `MotorChannel._encode_speed`: `chr(speed + 128)`. -/
def encode_speed (speed : Int) : Nat := (speed + 128).toNat

/-- The channel-select command byte written first by the power setter:
`CMD_SPEED0` for channel 0, `CMD_SPEED1` otherwise. -/
def channel_cmd (ch : Nat) : Nat := if ch = 0 then CMD_SPEED0 else CMD_SPEED1

/-- `MotorChannel.power` setter. `t n` tells whether the n-th `serial.write`
of this call succeeds; a failing write raises, so nothing later in the body
runs. Returns the new object state, the list of bytes actually written, and
whether the call completed without exception. Mirrors the source order:
`self._power = value` first, then clamping, then the two writes. -/
def power_set (s : MotorChannelState) (value : Int) (t : Nat → Bool) :
    MotorChannelState × List Nat × Bool :=
  let s2 : MotorChannelState := { s with power := value }
  let v : Int :=
    if value > PWM_MAX then PWM_MAX
    else if value < -PWM_MAX then -PWM_MAX
    else value
  let b1 : Nat := channel_cmd s2.channel
  let b2 : Nat :=
    if v = 0 ∧ s2.use_brake = true then SPEED_BRAKE else encode_speed v
  if t 0 then
    if t 1 then (s2, [b1, b2], true) else (s2, [b1], false)
  else (s2, [], false)

/-- `MotorChannel.use_brake` setter: stores the flag, then, if the cached
power is 0, immediately re-runs the power setter with 0. -/
def use_brake_set (s : MotorChannelState) (value : Bool) (t : Nat → Bool) :
    MotorChannelState × List Nat × Bool :=
  let s2 : MotorChannelState := { s with use_brake := value }
  if s2.power = 0 then power_set s2 0 t else (s2, [], true)

end Motor

/-- `clamp lo hi v` restricts `v` to `[lo, hi]`; used to phrase the claims
about the transmitted speed byte. -/
def clamp (lo hi v : Int) : Int := max lo (min hi v)

/-- A transport on which every write succeeds. -/
def allOk : Nat → Bool := fun _ => true

/-- The test `len(r) > 0 and r[-1] == "\n"` applied to a `readline` result,
shared verbatim by `Motor._get_fwver` and `RuggeduinoCmdBase.command`. -/
def good_line (r : String) : Bool := r.length > 0 && r.back = '\n'

/-- A `for i in range(fuel)` retry loop over `serial.readline` results:
returns the first result passing `good_line`, or `none` once the attempts
are exhausted. `i` is the index of the next attempt in `reads`. -/
def read_retry (reads : Nat → String) : Nat → Nat → Option String
  | 0, _ => none
  | n + 1, i =>
    if good_line (reads i) then some (reads i) else read_retry reads n (i + 1)

namespace Motor

/-- Result of `Motor.__init__`'s firmware handling: the exception raised. -/
inductive MotorInitError where
  | firmwareReadFail
  | incorrectFirmware (expected : String) (actual : String)
deriving DecidableEq, Repr

/-- `Motor._get_fwver`: up to 10 write/readline attempts; a response is
accepted when it is non-empty and ends in a newline; otherwise the loop raises
`FirmwareReadFail`. -/
def get_fwver (reads : Nat → String) : Except Unit String :=
  match read_retry reads 10 0 with
  | some r => Except.ok r
  | none => Except.error ()

/-- The firmware-checking part of `Motor.__init__`: reads the firmware
version, and when `check_fwver` is set and the version differs from
`EXPECTED_FW_VER`, closes the serial port and raises `IncorrectFirmware`
carrying the expected and actual strings. The second component records
whether `self.close()` was called. -/
def motor_init_fw (check_fwver : Bool) (reads : Nat → String) :
    Except MotorInitError String × Bool :=
  match get_fwver reads with
  | Except.error _ => (Except.error MotorInitError.firmwareReadFail, false)
  | Except.ok fw =>
    if check_fwver && fw != EXPECTED_FW_VER then
      (Except.error (MotorInitError.incorrectFirmware EXPECTED_FW_VER fw), true)
    else (Except.ok fw, false)

end Motor

namespace Ruggeduino
/- Embedding of sr/robot/ruggeduino.py. -/

def COMMAND_RETRIES : Nat := 10

/-- The message of the exception raised when the retry budget is exhausted;
it names the command that could not be completed. -/
def fail_msg (cmd : String) : String :=
  "Communications with Ruggeduino failed for " ++ "command " ++ cmd ++ "."

/-- `RuggeduinoCmdBase.command`: write the command and read a line, up to
`COMMAND_RETRIES` times; return the first non-empty newline-terminated
response, else raise naming the command. -/
def command (cmd : String) (reads : Nat → String) : Except String String :=
  match read_retry reads COMMAND_RETRIES 0 with
  | some r => Except.ok r
  | none => Except.error (fail_msg cmd)

/-- `v.split(":")[0]`: the prefix of `v` before the first `":"` (the whole
string when no `":"` occurs), which is how `_is_srduino` reads the first
field of the version response. -/
def split_head (v : String) : String :=
  String.mk (v.toList.takeWhile (fun c => c ≠ ':'))

/-- `Ruggeduino._is_srduino`: the response to the version query is split on
`":"` and the first field compared with `"SRduino"`. -/
def is_srduino (v : String) : Bool := split_head v = "SRduino"

/-- `Ruggeduino.__init__` after the base constructor: queries the firmware
version (`command 'v'` under the lock); a raising `command` propagates; on a
response, construction succeeds and the returned flag records whether the
"not running the SR firmware" warning was logged. -/
def ruggeduino_init (reads : Nat → String) : Except String Bool :=
  match command "v" reads with
  | Except.error e => Except.error e
  | Except.ok v => Except.ok (! is_srduino v)

end Ruggeduino

namespace Power
/- Embedding of sr/robot/power.py. -/

def CMD_WRITE_output0 : Nat := 0
def CMD_WRITE_runled : Nat := 6
def CMD_WRITE_errorled : Nat := 7
def CMD_WRITE_piezo : Nat := 8
def CMD_READ_batt : Nat := 7
def CMD_READ_button : Nat := 8

/-- One USB control transfer as issued by `handle.controlWrite(request_type,
request, value, index, data)`; `data` is the trailing payload argument. -/
structure ControlTransfer where
  request_type : Nat
  request : Nat
  value : Nat
  index : Nat
  data : Nat
deriving DecidableEq, Repr

/-- State held by an `Outputs` facade object: `__init__` stores only the
transfer handle; there is no cache of written values and no `__getitem__`. -/
structure OutputsState where
  handle : Unit
deriving DecidableEq, Repr

/-- `Outputs.__setitem__`: rejects an index outside `[0, 6)` before any
transfer; otherwise coerces the value by truthiness to `True`/`False` (sent
as the 16-bit value 1/0) and issues one control write to command
`CMD_WRITE_output0 + index`. -/
def Outputs.setitem (index : Int) (value : Int) :
    Except String ControlTransfer :=
  if index > 5 ∨ index < 0 then
    Except.error "Setting out-of-range rail address"
  else
    let val : Bool := value ≠ 0
    let cmd : Nat := CMD_WRITE_output0 + index.toNat
    Except.ok
      { request_type := 0, request := 64, value := if val then 1 else 0,
        index := cmd, data := 0 }

/-- `Outputs.__setitem__` with the object state threaded through: the method
reads `self.handle` but assigns no attribute, so the state is returned
unchanged. -/
def Outputs.setitem_state (s : OutputsState) (index : Int) (value : Int) :
    OutputsState × Except String ControlTransfer :=
  (s, Outputs.setitem index value)

/-- `struct.unpack("i", ...)` on 4 raw bytes: one little-endian 32-bit
signed integer. -/
def decode_i32le (b0 b1 b2 b3 : Nat) : Int :=
  if b0 + 256 * b1 + 65536 * b2 + 16777216 * b3 < 2147483648 then
    ((b0 + 256 * b1 + 65536 * b2 + 16777216 * b3 : Nat) : Int)
  else
    ((b0 + 256 * b1 + 65536 * b2 + 16777216 * b3 : Nat) : Int) - 4294967296

/-- `struct.unpack("ii", result)` on the 8-byte battery response. -/
def struct_unpack_ii : List Nat → Option (Int × Int)
  | [a0, a1, a2, a3, b0, b1, b2, b3] =>
    some (decode_i32le a0 a1 a2 a3, decode_i32le b0 b1 b2 b3)
  | _ => none

/-- The little-endian byte representation the board sends for a 32-bit
signed integer; used to build concrete raw responses in the theorems. -/
def i32le_bytes (x : Int) : List Nat :=
  let n : Nat := (x % 4294967296).toNat
  [n % 256, n / 256 % 256, n / 65536 % 256, n / 16777216 % 256]

/-- Python 2 `round` to `d = 2` decimal places: half away from zero. -/
def round2 (q : ℚ) : ℚ :=
  (((if q ≥ 0 then ⌊q * 100 + 1 / 2⌋ else -⌊-(q * 100) + 1 / 2⌋) : ℤ) : ℚ) / 100

/-- `Battery._get_vi`: unpacks `(current, voltage)` from the raw response and
returns them swapped, `(voltage, current)`; `none` when the transfer did not
return exactly 8 bytes. -/
def Battery.get_vi (raw : List Nat) : Option (Int × Int) :=
  (struct_unpack_ii raw).map (fun cv => (cv.2, cv.1))

/-- `Battery.voltage`: `round(self._get_vi()[0] / 1000.0, 2)`. -/
def Battery.voltage (raw : List Nat) : Option ℚ :=
  (Battery.get_vi raw).map (fun p => round2 ((p.1 : ℚ) / 1000))

/-- `Battery.current`: `round(self._get_vi()[1] / 1000.0, 2)`. -/
def Battery.current (raw : List Nat) : Option ℚ :=
  (Battery.get_vi raw).map (fun p => round2 ((p.2 : ℚ) / 1000))

/-- The note table of `Power.note_to_freq`. -/
def notes : List (String × Int) :=
  [("c", 261), ("d", 294), ("e", 329), ("f", 349),
   ("g", 392), ("a", 440), ("b", 493), ("uc", 523)]

/-- `Power.note_to_freq`: dictionary lookup; a missing key raises
`ValueError` naming the note. -/
def note_to_freq (notestr : String) : Except String Int :=
  match notes.lookup notestr with
  | some f => Except.ok f
  | none => Except.error (notestr ++ " is not a recognised note.")

/-- The second element of a `(duration, note-or-frequency)` pair. -/
inductive FreqDesc where
  | note (s : String)
  | freq (n : Int)
deriving DecidableEq, Repr

/-- The conversion loop at the end of `Power.beep`: notes are resolved
through `note_to_freq` (whose `ValueError` propagates), ints pass through. -/
def convert_beeps : List (Int × FreqDesc) → Except String (List (Int × Int))
  | [] => Except.ok []
  | (d, fd) :: rest =>
    match (match fd with
           | FreqDesc.note s => note_to_freq s
           | FreqDesc.freq n => Except.ok n) with
    | Except.error e => Except.error e
    | Except.ok f => (convert_beeps rest).map (fun l => (d, f) :: l)

/-- `Power.beep` restricted to a scalar (non-iterable) duration: rejects a
note and a frequency given together; picks the note, the frequency, or the
default 440; then converts and enqueues. The `ok` payload is the beep list
handed to `enqueue_beeps`, so an `error` result issues no transfer. -/
def beep_single (duration : Int) (note : Option String)
    (frequency : Option Int) : Except String (List (Int × Int)) :=
  if note.isSome && frequency.isSome then
    Except.error "Note and frequency specified for beep"
  else
    let beeps : List (Int × FreqDesc) :=
      match note with
      | some n => [(duration, FreqDesc.note n)]
      | none =>
        match frequency with
        | some f => [(duration, FreqDesc.freq f)]
        | none => [(duration, FreqDesc.freq 440)]
    convert_beeps beeps

end Power

namespace Ruggeduino
/- Lock-discipline model of sr/robot/ruggeduino.py for the exclusion-guard
claim. Each method body is flattened into the sequence of lock and serial
events it performs; `run_actions` executes such a sequence against the lock
state, failing (`none`) on the `assert self.lock.locked()` at the top of
`command` when the lock is not held, and on acquiring a lock already held. -/

inductive RAction where
  | acquire
  | release
  | assertLocked
  | serialWrite
  | serialRead
deriving DecidableEq, Repr

/-- The events of one `RuggeduinoCmdBase.command` call: the assertion that
the lock is held, then the write/readline exchange. -/
def command_actions : List RAction :=
  [RAction.assertLocked, RAction.serialWrite, RAction.serialRead]

/-- A `with self.lock:` block around a body. -/
def with_lock (body : List RAction) : List RAction :=
  RAction.acquire :: body ++ [RAction.release]

/-- `Ruggeduino.pin_mode`: `with self.lock: self.command(...)`. -/
def pin_mode_actions : List RAction := with_lock command_actions

/-- `Ruggeduino.digital_read`: `with self.lock: self.command(...)`. -/
def digital_read_actions : List RAction := with_lock command_actions

/-- `Ruggeduino.digital_write`: `with self.lock: self.command(...)`. -/
def digital_write_actions : List RAction := with_lock command_actions

/-- `Ruggeduino.analogue_read`: `with self.lock: self.command(...)`. -/
def analogue_read_actions : List RAction := with_lock command_actions

/-- `RuggeduinoCmdBase.firmware_version_read`:
`with self.lock: self.command('v')`. -/
def firmware_version_read_actions : List RAction := with_lock command_actions

/-- Runs an event sequence against the lock state (`true` = held). `none`
models a failed assertion or a self-deadlocking acquire; `some b` returns
the final lock state. -/
def run_actions : Bool → List RAction → Option Bool
  | locked, [] => some locked
  | locked, RAction.acquire :: rest =>
    if locked then none else run_actions true rest
  | _, RAction.release :: rest => run_actions false rest
  | locked, RAction.assertLocked :: rest =>
    if locked then run_actions locked rest else none
  | locked, RAction.serialWrite :: rest => run_actions locked rest
  | locked, RAction.serialRead :: rest => run_actions locked rest

end Ruggeduino

/-! ### Properties of the shared retry loop -/

/-- If every read in the window is rejected by `good_line`, the retry loop
exhausts its attempts. -/
lemma read_retry_all_bad (reads : Nat → String) (fuel : Nat) :
    ∀ i, (∀ j, j < fuel → good_line (reads (i + j)) = false) →
      read_retry reads fuel i = none := by
  induction fuel with
  | zero => intro i _; rfl
  | succ n ih =>
    intro i h
    unfold read_retry
    have h0 : good_line (reads i) = false := by
      have := h 0 (Nat.succ_pos n)
      simpa using this
    rw [h0]
    simp only [Bool.false_eq_true, if_false]
    refine ih (i + 1) (fun j hj => ?_)
    have e : i + 1 + j = i + (j + 1) := by omega
    rw [e]
    exact h (j + 1) (by omega)

/-- If attempt `k` (within the budget) is the first to pass `good_line`, the
retry loop returns that read and makes no further attempts. -/
lemma read_retry_first_good (reads : Nat → String) (fuel : Nat) :
    ∀ i k, k < fuel → (∀ j, j < k → good_line (reads (i + j)) = false) →
      good_line (reads (i + k)) = true →
      read_retry reads fuel i = some (reads (i + k)) := by
  induction fuel with
  | zero => intro i k hk _ _; exact absurd hk (Nat.not_lt_zero k)
  | succ n ih =>
    intro i k hk hbad hgood
    unfold read_retry
    cases k with
    | zero =>
      rw [Nat.add_zero] at hgood
      rw [hgood]
      simp
    | succ m =>
      have h0 : good_line (reads i) = false := by
        have := hbad 0 (Nat.succ_pos m)
        simpa using this
      rw [h0]
      simp only [Bool.false_eq_true, if_false]
      have e : i + 1 + m = i + (m + 1) := by omega
      have := ih (i + 1) m (by omega)
        (fun j hj => by
          have e2 : i + 1 + j = i + (j + 1) := by omega
          rw [e2]
          exact hbad (j + 1) (by omega))
        (by rw [e]; exact hgood)
      rw [e] at this
      exact this

/-! ### Claim theorems -/

/-- Claim C4: the Ruggeduino line-protocol exchange makes at most 10
write-then-read attempts; if attempt `k < 10` is the first whose read is
non-empty and newline-terminated, that response is returned and no further
attempt is made; if all 10 reads are empty or not newline-terminated, the
exchange fails with the `CommandFailed` message naming the command. -/
theorem ruggeduino_command_retry (cmd : String) (readsA readsB : Nat → String)
    (k : Nat) (hk : k < 10)
    (hbadA : ∀ j, j < k → good_line (readsA j) = false)
    (hgoodA : good_line (readsA k) = true)
    (hbadB : ∀ j, j < 10 → good_line (readsB j) = false) :
    Ruggeduino.command cmd readsA = Except.ok (readsA k) ∧
    Ruggeduino.command cmd readsB =
      Except.error (Ruggeduino.fail_msg cmd) := by
  constructor
  · unfold Ruggeduino.command Ruggeduino.COMMAND_RETRIES
    rw [read_retry_first_good readsA 10 0 k hk
      (fun j hj => by simpa using hbadA j hj) (by simpa using hgoodA)]
    rw [Nat.zero_add]
  · unfold Ruggeduino.command Ruggeduino.COMMAND_RETRIES
    rw [read_retry_all_bad readsB 10 0 (fun j hj => by simpa using hbadB j hj)]

/-- Witness for C4: a transport empty on the first 9 attempts and valid on
the 10th succeeds with that line; a transport empty on all 10 fails with the
message naming the command. -/
theorem ruggeduino_command_retry_witness :
    Ruggeduino.command "v" (fun i => if i = 9 then "ok\n" else "") =
      Except.ok "ok\n" ∧
    Ruggeduino.command "v" (fun _ => "") =
      Except.error (Ruggeduino.fail_msg "v") :=
  ruggeduino_command_retry "v" (fun i => if i = 9 then "ok\n" else "")
    (fun _ => "") 9 (by omega)
    (fun j hj => by
      have hne : j ≠ 9 := by omega
      simp [hne, good_line])
    (by decide)
    (fun j _ => rfl)

/-- Claim C5: two firmware-identity failure policies. Motor board: retries
exhausted (no well-formed version line in 10 attempts) raises
`FirmwareReadFail` (the port is not closed by that path); a well-formed
response differing from `EXPECTED_FW_VER`, with version checking requested,
closes the port and raises `IncorrectFirmware` carrying the expected and the
actual string. I/O board: a received version that is not SR firmware only
sets the warning flag and construction succeeds. -/
theorem firmware_check_policies (check : Bool)
    (readsA readsB readsC : Nat → String) (fw v : String)
    (hA : ∀ j, j < 10 → good_line (readsA j) = false)
    (hB : Motor.get_fwver readsB = Except.ok fw)
    (hBne : fw ≠ Motor.EXPECTED_FW_VER)
    (hC : Ruggeduino.command "v" readsC = Except.ok v)
    (hCm : Ruggeduino.is_srduino v = false) :
    Motor.motor_init_fw check readsA =
      (Except.error Motor.MotorInitError.firmwareReadFail, false) ∧
    (check = true →
      Motor.motor_init_fw check readsB =
        (Except.error
          (Motor.MotorInitError.incorrectFirmware Motor.EXPECTED_FW_VER fw),
         true)) ∧
    Ruggeduino.ruggeduino_init readsC = Except.ok true := by
  refine ⟨?_, ?_, ?_⟩
  · unfold Motor.motor_init_fw Motor.get_fwver
    rw [read_retry_all_bad readsA 10 0 (fun j hj => by simpa using hA j hj)]
  · intro hcheck
    unfold Motor.motor_init_fw
    rw [hB]
    simp [hcheck, hBne]
  · unfold Ruggeduino.ruggeduino_init
    rw [hC]
    simp [hCm]

/-- Witness for C5 at concrete transports: all-empty reads for the motor
board, a wrong-but-well-formed version for the motor board with checking on,
and a non-SRduino version string for the I/O board. -/
theorem firmware_check_policies_witness :
    Motor.motor_init_fw true (fun _ => "") =
      (Except.error Motor.MotorInitError.firmwareReadFail, false) ∧
    (true = true →
      Motor.motor_init_fw true (fun _ => "XX\n") =
        (Except.error
          (Motor.MotorInitError.incorrectFirmware Motor.EXPECTED_FW_VER "XX\n"),
         true)) ∧
    Ruggeduino.ruggeduino_init (fun _ => "Nope:1\n") = Except.ok true :=
  firmware_check_policies true (fun _ => "") (fun _ => "XX\n")
    (fun _ => "Nope:1\n") "XX\n" "Nope:1\n"
    (fun j _ => rfl) rfl (by decide) rfl (by decide)

/-- Claim C1: assigning `v` to a motor channel's power caches the unclamped
integer `v` (reading power back returns `v` exactly, even outside
`[-100, 100]`), while the speed byte written after the channel-select byte
is `clamp v (-100) 100 + 128`, except that `v = 0` with braking enabled
sends the distinct brake byte `SPEED_BRAKE = 0x02` instead. -/
theorem motor_power_cache_unclamped_wire_byte
    (s : Motor.MotorChannelState) (v : Int) :
    (Motor.power_set s v allOk).1.power = v ∧
    (Motor.power_set s v allOk).2.1 =
      [Motor.channel_cmd s.channel,
       if v = 0 ∧ s.use_brake = true then Motor.SPEED_BRAKE
       else (clamp (-100) 100 v + 128).toNat] := by
  unfold Motor.power_set allOk
  refine ⟨rfl, ?_⟩
  have hcl : (if v > Motor.PWM_MAX then Motor.PWM_MAX
      else if v < -Motor.PWM_MAX then -Motor.PWM_MAX else v) =
      clamp (-100) 100 v := by
    unfold Motor.PWM_MAX clamp
    omega
  have hz : (clamp (-100) 100 v = 0) ↔ v = 0 := by
    unfold clamp
    omega
  simp only [hcl, hz, Motor.encode_speed, if_true]

/-- Claim C3, amended: the power setter stores the cached power before issuing
the transport writes, so the cache holds the newly assigned value whatever
the transport does — including when a write raises. -/
theorem motor_power_cache_updated_before_write
    (s : Motor.MotorChannelState) (v : Int) (t : Nat → Bool) :
    (Motor.power_set s v t).1.power = v := by
  unfold Motor.power_set
  split_ifs <;> rfl

/-- Counterexample to C3 as stated: starting from a fresh channel (cached
power 0), assigning power 50 over a transport whose write raises leaves the
call failed, yet the cached power has already changed from 0 to 50 — the
cache is not updated only after a successful transport write. -/
theorem motor_power_cache_failed_write_counterexample :
    (Motor.power_set (Motor.MotorChannel.init 0) 50 (fun _ => false)).2.2 =
      false ∧
    (Motor.power_set (Motor.MotorChannel.init 0) 50 (fun _ => false)).1.power =
      50 ∧
    (Motor.MotorChannel.init 0).power = 0 :=
  ⟨rfl, rfl, rfl⟩

/-- Claim C8: setting `use_brake` on a channel whose cached power is 0 immediately
re-issues the power command — the channel-select byte followed by the brake
byte when the new setting is true, or the zero-speed byte 128 when false —
leaving the cached power at 0. -/
theorem use_brake_reissues_power
    (s : Motor.MotorChannelState) (b : Bool) (h : s.power = 0) :
    (Motor.use_brake_set s b allOk).1.use_brake = b ∧
    (Motor.use_brake_set s b allOk).1.power = 0 ∧
    (Motor.use_brake_set s b allOk).2.1 =
      [Motor.channel_cmd s.channel,
       if b then Motor.SPEED_BRAKE else 128] := by
  unfold Motor.use_brake_set Motor.power_set allOk
  refine ⟨?_, ?_, ?_⟩
  · simp only [h, if_true]
  · simp only [h, if_true]
  · simp only [h, if_true]
    cases b <;> rfl

/-- Witness for C8: disabling the brake on a fresh channel (cached power 0,
brake enabled) immediately writes the channel command and the zero-speed
byte 128. -/
theorem use_brake_reissues_power_witness :
    (Motor.use_brake_set (Motor.MotorChannel.init 0) false allOk).1.use_brake =
      false ∧
    (Motor.use_brake_set (Motor.MotorChannel.init 0) false allOk).1.power =
      0 ∧
    (Motor.use_brake_set (Motor.MotorChannel.init 0) false allOk).2.1 =
      [Motor.channel_cmd 0, if false then Motor.SPEED_BRAKE else 128] :=
  use_brake_reissues_power (Motor.MotorChannel.init 0) false rfl

/-- Claim C10: a freshly constructed `MotorChannel` has cached power 0 and brake
enabled; before any assignment, reading power returns 0, and the first
assignment of power 0 transmits the brake byte after the channel-select
byte, not the zero-speed byte. -/
theorem motorchannel_fresh_state (ch : Nat) :
    (Motor.MotorChannel.init ch).power = 0 ∧
    (Motor.MotorChannel.init ch).use_brake = true ∧
    (Motor.power_set (Motor.MotorChannel.init ch) 0 allOk).2.1 =
      [Motor.channel_cmd ch, Motor.SPEED_BRAKE] :=
  ⟨rfl, rfl, rfl⟩

/-- Claim C2, amended: for an output index in `[0, 6)`, `Outputs.__setitem__`
issues one control write whose 16-bit value is the written value coerced to
a boolean-as-integer (0 or 1) and whose command is the index's write opcode;
for an index outside `[0, 6)` it fails with the out-of-range error before
any transfer. (The read-back part of the original claim is dropped: the
`Outputs` class keeps no cache and offers no read operation.) -/
theorem outputs_setitem_range_and_coercion (i val : Int) :
    (0 ≤ i → i ≤ 5 →
      Power.Outputs.setitem i val =
        Except.ok
          { request_type := 0, request := 64,
            value := if val = 0 then 0 else 1,
            index := i.toNat, data := 0 }) ∧
    (i < 0 ∨ 5 < i →
      Power.Outputs.setitem i val =
        Except.error "Setting out-of-range rail address") := by
  unfold Power.Outputs.setitem
  constructor
  · intro h1 h2
    rw [if_neg (by omega)]
    by_cases hv : val = 0 <;> simp [hv, Power.CMD_WRITE_output0]
  · intro h
    rw [if_pos (by omega)]

/-- Witness for C2 (amended): writing the truthy value 7 to output 3 issues
a transfer with value 1 and command 3; writing to output 6 fails with the
out-of-range error. -/
theorem outputs_setitem_witness :
    Power.Outputs.setitem 3 7 =
      Except.ok
        { request_type := 0, request := 64,
          value := if (7 : Int) = 0 then 0 else 1,
          index := (3 : Int).toNat, data := 0 } ∧
    Power.Outputs.setitem 6 1 =
      Except.error "Setting out-of-range rail address" :=
  ⟨(outputs_setitem_range_and_coercion 3 7).1 (by decide) (by decide),
   (outputs_setitem_range_and_coercion 6 1).2 (by decide)⟩

/-- Counterexample to C2 as stated: the `Outputs` facade keeps no per-index
state (its only attribute is the handle), so after writing `1` and then `0`
to output 0 the facade state is identical to the state after writing `0`
and then `1` — no read function on the facade state can return the cached
last-written value, because it would have to return both `true` and `false`
on the same state. -/
theorem outputs_no_readback_counterexample :
    (Power.Outputs.setitem_state
        (Power.Outputs.setitem_state ⟨()⟩ 0 1).1 0 0).1 =
      (Power.Outputs.setitem_state
        (Power.Outputs.setitem_state ⟨()⟩ 0 0).1 0 1).1 ∧
    ¬ ∃ f : Power.OutputsState → Bool,
        f (Power.Outputs.setitem_state
            (Power.Outputs.setitem_state ⟨()⟩ 0 0).1 0 1).1 = true ∧
        f (Power.Outputs.setitem_state
            (Power.Outputs.setitem_state ⟨()⟩ 0 1).1 0 0).1 = false := by
  refine ⟨rfl, ?_⟩
  rintro ⟨f, h1, h2⟩
  have e1 : f ⟨()⟩ = true := h1
  have e2 : f ⟨()⟩ = false := h2
  rw [e1] at e2
  exact Bool.noConfusion e2

/-- Claim C7: single-beep argument validation — an unrecognized note name fails
with the `ValueError` naming it (before any transfer: the `ok` payload is
what gets transferred); supplying a note and a frequency together fails;
supplying neither succeeds with the default frequency 440. -/
theorem beep_argument_validation :
    Power.beep_single 100 (some "q") none =
      Except.error "q is not a recognised note." ∧
    Power.beep_single 100 (some "a") (some 440) =
      Except.error "Note and frequency specified for beep" ∧
    Power.beep_single 100 none none = Except.ok [(100, 440)] :=
  ⟨rfl, rfl, rfl⟩

/-- Claim C9: `command` asserts that the exclusion guard is held before touching
the serial port, and each public operation (`pin_mode`, `digital_read`,
`digital_write`, `analogue_read`, `firmware_version_read`) wraps its whole
write-then-read exchange in `with self.lock`, so run from an unlocked state
each completes without tripping the assertion and releases the lock; the
bare `command` sequence run without the lock fails the assertion. -/
theorem ruggeduino_lock_discipline :
    Ruggeduino.run_actions false Ruggeduino.pin_mode_actions = some false ∧
    Ruggeduino.run_actions false Ruggeduino.digital_read_actions =
      some false ∧
    Ruggeduino.run_actions false Ruggeduino.digital_write_actions =
      some false ∧
    Ruggeduino.run_actions false Ruggeduino.analogue_read_actions =
      some false ∧
    Ruggeduino.run_actions false Ruggeduino.firmware_version_read_actions =
      some false ∧
    Ruggeduino.run_actions false Ruggeduino.command_actions = none := by
  decide

/-- Decoding the little-endian byte representation of a 32-bit signed
integer recovers the integer. -/
lemma decode_i32le_bytes (x : Int)
    (h1 : -2147483648 ≤ x) (h2 : x < 2147483648) :
    Power.decode_i32le ((x % 4294967296).toNat % 256)
      ((x % 4294967296).toNat / 256 % 256)
      ((x % 4294967296).toNat / 65536 % 256)
      ((x % 4294967296).toNat / 16777216 % 256) = x := by
  unfold Power.decode_i32le
  have h0 : (0 : Int) ≤ x % 4294967296 := Int.emod_nonneg x (by norm_num)
  have h3 : x % 4294967296 < 4294967296 :=
    Int.emod_lt_of_pos x (by norm_num)
  set n := (x % 4294967296).toNat with hn
  have hni : (n : Int) = x % 4294967296 := by omega
  have hlt : n < 4294967296 := by omega
  have hrec : n % 256 + 256 * (n / 256 % 256) + 65536 * (n / 65536 % 256) +
      16777216 * (n / 16777216 % 256) = n := by omega
  rw [hrec]
  split_ifs with hsml
  · omega
  · omega

/-- On an 8-byte response built from two in-range 32-bit integers, the
unpack step recovers them in order. -/
lemma struct_unpack_ii_bytes (c v : Int)
    (hc1 : -2147483648 ≤ c) (hc2 : c < 2147483648)
    (hv1 : -2147483648 ≤ v) (hv2 : v < 2147483648) :
    Power.struct_unpack_ii (Power.i32le_bytes c ++ Power.i32le_bytes v) =
      some (c, v) := by
  simp only [Power.i32le_bytes, List.cons_append, List.nil_append,
    Power.struct_unpack_ii]
  rw [decode_i32le_bytes c hc1 hc2, decode_i32le_bytes v hv1 hv2]

/-- Claim C6: the 8-byte battery response is two little-endian 32-bit signed
integers in the order (current_mA, voltage_mV); the voltage property is the
voltage field divided by 1000 and rounded to 2 decimal places, the current
property the current field likewise; in particular raw bytes encoding
current 250 and voltage 11100 decode to voltage 11.1 and current 0.25. -/
theorem battery_decode (c v : Int)
    (hc1 : -2147483648 ≤ c) (hc2 : c < 2147483648)
    (hv1 : -2147483648 ≤ v) (hv2 : v < 2147483648) :
    Power.Battery.voltage (Power.i32le_bytes c ++ Power.i32le_bytes v) =
      some (Power.round2 ((v : ℚ) / 1000)) ∧
    Power.Battery.current (Power.i32le_bytes c ++ Power.i32le_bytes v) =
      some (Power.round2 ((c : ℚ) / 1000)) ∧
    Power.Battery.voltage
        (Power.i32le_bytes 250 ++ Power.i32le_bytes 11100) =
      some (111 / 10) ∧
    Power.Battery.current
        (Power.i32le_bytes 250 ++ Power.i32le_bytes 11100) =
      some (1 / 4) := by
  have key := struct_unpack_ii_bytes c v hc1 hc2 hv1 hv2
  have key2 : Power.struct_unpack_ii
      (Power.i32le_bytes 250 ++ Power.i32le_bytes 11100) =
      some (250, 11100) :=
    struct_unpack_ii_bytes 250 11100 (by norm_num) (by norm_num)
      (by norm_num) (by norm_num)
  refine ⟨?_, ?_, ?_, ?_⟩
  · unfold Power.Battery.voltage Power.Battery.get_vi
    rw [key]
    rfl
  · unfold Power.Battery.current Power.Battery.get_vi
    rw [key]
    rfl
  · unfold Power.Battery.voltage Power.Battery.get_vi
    rw [key2]
    have h11 : Power.round2 ((11100 : ℚ) / 1000) = 111 / 10 := by
      unfold Power.round2
      norm_num
    simp [h11]
  · unfold Power.Battery.current Power.Battery.get_vi
    rw [key2]
    have h025 : Power.round2 ((250 : ℚ) / 1000) = 1 / 4 := by
      unfold Power.round2
      norm_num
    simp [h025]

/-- Witness for C6 at the claim's concrete telemetry: current 250 mA and
voltage 11100 mV. -/
theorem battery_decode_witness :
    Power.Battery.voltage (Power.i32le_bytes 250 ++ Power.i32le_bytes 11100) =
      some (Power.round2 (((11100 : Int) : ℚ) / 1000)) ∧
    Power.Battery.current (Power.i32le_bytes 250 ++ Power.i32le_bytes 11100) =
      some (Power.round2 (((250 : Int) : ℚ) / 1000)) ∧
    Power.Battery.voltage (Power.i32le_bytes 250 ++ Power.i32le_bytes 11100) =
      some (111 / 10) ∧
    Power.Battery.current (Power.i32le_bytes 250 ++ Power.i32le_bytes 11100) =
      some (1 / 4) :=
  battery_decode 250 11100 (by norm_num) (by norm_num) (by norm_num)
    (by norm_num)
